import Mathlib

/-!
Verification of the gakisitor core against its specification.

The Go sources embedded here are:
* `src/event/bus.go` — the topic-based event bus (`Publish`, `Subscribe`,
  `Unsubscribe`);
* `src/kernel/core.go` — the kernel lifecycle orchestrator (`Configure`,
  `Run`, `Stop`, `State`);
* `src/services/network/notification.go` — notification routing (`handle`,
  `defaultNotificationHandler`).

Pure data is translated directly; Go goroutines, channels and callbacks are
made observable as explicit traces returned by the operations (handler
invocations, started delivery attempts, invoked cancellation tokens, hook
calls).  Go maps become association lists, Go slices become Lean lists, and
the one place where Go slice aliasing matters (`Unsubscribe`'s in-place
`append` that is never written back to the map) is modelled explicitly.
-/

namespace Gakisitor

/-! ## Event bus (src/event/bus.go) -/

/-- The bus error values declared at the top of `bus.go`. -/
inductive BusError where
  | publishTimeout
  | channelNotFound
  | channelClosed
  | channelSubscriberNotFound
  | channelSubscriberAlreadyExists
deriving DecidableEq, Repr

/-- `subscriber` from `bus.go`: the registration id, the delivery queue
(`ch chan<- *Event`, identified here by a numeric token) and the
cancellation token (`cancel func()`, identified by a numeric token). -/
structure Sub where
  id : String
  ch : Nat
  cancel : Nat
deriving DecidableEq, Repr

/-- `Bus` from `bus.go`: `subscribers map[string][]subscriber` as an
association list and `ids map[string]interface\x7b\x7d` as a list used as a
set.  The mutex is irrelevant in this sequential embedding. -/
structure Bus where
  subscribers : List (String × List Sub)
  ids : List String
deriving DecidableEq, Repr

/-- Go map read `m[k]`: `none` when the key is absent. -/
def mapLookup {α : Type} (m : List (String × α)) (k : String) : Option α :=
  match m with
  | [] => none
  | (k', v) :: rest => if k' = k then some v else mapLookup rest k

/-- Go map write `m[k] = v` (update in place or insert). -/
def mapSet {α : Type} (m : List (String × α)) (k : String) (v : α) :
    List (String × α) :=
  match m with
  | [] => [(k, v)]
  | (k', v') :: rest =>
    if k' = k then (k, v) :: rest else (k', v') :: mapSet rest k v

/-- Go map `delete(m, k)`. -/
def mapDel {α : Type} (m : List (String × α)) (k : String) :
    List (String × α) :=
  match m with
  | [] => []
  | (k', v') :: rest => if k' = k then rest else (k', v') :: mapDel rest k

/-- Go set-map `delete(ids, id)`. -/
def setDel (ids : List String) (id : String) : List String :=
  ids.filter (fun x => decide (x ≠ id))

/-- `replyTimeout = 25 * time.Millisecond` from `bus.go`, in milliseconds. -/
def replyTimeout : Nat := 25

/-- The registration id computed in `Subscribe` and `Unsubscribe`:
`fmt.Sprintf("%s:%s", channel, name)` where `name` is the reflective name of
the consumer function. -/
def subscriberId (channel name : String) : String :=
  channel ++ ":" ++ name

/-- One invocation of the `ReplyHandler` passed to `Publish`:
`handler.consume(reply, errConduit, err, timeout)`.  Conduits are identified
by numeric tokens, `none` standing for Go `nil`. -/
structure Invocation where
  reply : Option Nat
  errConduit : Option Nat
  err : Option BusError
  timeout : Nat
deriving DecidableEq, Repr

/-- One delivery-attempt goroutine started by `Publish`: it targets one
subscriber's delivery queue and owns the fresh `Event`'s two conduits. -/
structure Delivery where
  queue : Nat
  reply : Nat
  errConduit : Nat
deriving DecidableEq, Repr

/-- The fan-out loop of `Publish`: for each subscriber in registration order
a fresh `Event` is allocated (its reply conduit is token `2*i` and its error
conduit token `2*i+1`, `i` being the position in the fan-out), a delivery
goroutine is started for it, and — when a handler was supplied — the handler
is invoked with that event's conduits, a nil error and `replyTimeout`. -/
def fanOut (subs : List Sub) (hasHandler : Bool) (i : Nat) :
    List Invocation × List Delivery :=
  match subs with
  | [] => ([], [])
  | s :: rest =>
    let r := fanOut rest hasHandler (i + 1)
    ((if hasHandler then
        [⟨some (2 * i), some (2 * i + 1), none, replyTimeout⟩] else []) ++ r.1,
     ⟨s.ch, 2 * i, 2 * i + 1⟩ :: r.2)

/-- `Bus.Publish` from `bus.go`.  Returns the (unchanged) bus, the list of
handler invocations performed before returning, and the list of delivery
attempts started.  `hasHandler` is `handler != nil`. -/
def Publish (bus : Bus) (channel : String) (hasHandler : Bool) :
    Bus × List Invocation × List Delivery :=
  match mapLookup bus.subscribers channel with
  | none =>
    (bus,
     (if hasHandler then [⟨none, none, some BusError.channelNotFound, 0⟩]
      else []),
     [])
  | some subs =>
    let r := fanOut subs hasHandler 0
    (bus, r.1, r.2)

/-- `Bus.Subscribe` from `bus.go`.  The fresh delivery queue and cancellation
token made by `make`/`context.WithCancel` are passed in as the tokens
`freshCh`/`freshCancel`.  The worker goroutine is spawned before the
duplicate-id check and does not touch the bus tables, so it does not appear
in the state. -/
def Subscribe (bus : Bus) (channel name : String) (freshCh freshCancel : Nat) :
    Bus × Option BusError :=
  let id := subscriberId channel name
  if id ∈ bus.ids then
    (bus, some BusError.channelSubscriberAlreadyExists)
  else
    ({ subscribers :=
         mapSet bus.subscribers channel
           ((mapLookup bus.subscribers channel).getD [] ++
             [⟨id, freshCh, freshCancel⟩]),
       ids := id :: bus.ids }, none)

/-- `Bus.Unsubscribe` from `bus.go`.  Returns the bus, the error, and the
list of cancellation tokens invoked.  The Go code executes
`sub = append(sub[:i], sub[i+1:]...)` on the local slice header `sub`
without writing it back to `bus.subscribers[channel]`: the in-place copy
shifts the underlying array (so positions `i .. n-2` hold the old elements
`i+1 .. n-1` and position `n-1` keeps the old last element), while the map
still sees a slice of the original length `n`.  The map entry is only
deleted when the local header's length `n-1` reaches zero. -/
def Unsubscribe (bus : Bus) (channel name : String) :
    Bus × Option BusError × List Nat :=
  match mapLookup bus.subscribers channel with
  | none => (bus, some BusError.channelNotFound, [])
  | some sub =>
    let id := subscriberId channel name
    match sub.findIdx? (fun s => decide (s.id = id)) with
    | none => (bus, some BusError.channelSubscriberNotFound, [])
    | some i =>
      let cancelled :=
        match sub.get? i with
        | some s => [s.cancel]
        | none => []
      let localSub := sub.take i ++ sub.drop (i + 1)
      let mapList := localSub ++ sub.drop (sub.length - 1)
      if localSub.length = 0 then
        ({ subscribers := mapDel bus.subscribers channel,
           ids := setDel bus.ids id }, none, cancelled)
      else
        ({ subscribers := mapSet bus.subscribers channel mapList,
           ids := setDel bus.ids id }, none, cancelled)

/-! ## Notification data (src/services/network/notification.go and the
notification/object types it routes) -/

/-- The content variants a `Notification` can carry: `*object.CommandObject`,
`*object.DataObject`, `*object.ErrorObject`, or anything else.  The payloads
are opaque to the routing code and are represented by numeric tokens. -/
inductive Content where
  | command (payload : Nat)
  | data (payload : Nat)
  | error (payload : Nat)
  | other (payload : Nat)
deriving DecidableEq, Repr

/-- A `notification.Notification`: a source identity (`n.From()`) and a
content value (`n.Content()`). -/
structure Notification where
  src : String
  content : Content
deriving DecidableEq, Repr

/-- Modelled from the spec: the entity identity constants
(`constant.EntityNames`, not under `src/`).  §6 of the spec names "a generic
module identity and the kernel's own identity" as the recognized sources. -/
def EntityNames.Core : String := "core"

/-- Modelled from the spec: the generic module entity identity. -/
def EntityNames.Module : String := "module"

/-- Modelled from the spec: the channel name constants
(`constant.Channels`, not under `src/`).  §6: stable identifiers
"Command", "Data", "Error". -/
def Channels.Command : String := "Command"

/-- Modelled from the spec: the "Data" channel name. -/
def Channels.Data : String := "Data"

/-- Modelled from the spec: the "Error" channel name. -/
def Channels.Error : String := "Error"

/-! ## Kernel lifecycle (src/kernel/core.go) -/

/-- The kernel's state flag constants (`constant.States`). -/
def States.Started : Nat := 0x1

/-- `constant.States.Idle`. -/
def States.Idle : Nat := 0x2

/-- `constant.States.Working`. -/
def States.Working : Nat := 0x4

/-- `constant.States.Stopped`. -/
def States.Stopped : Nat := 0x8

/-- `constant.States.Panic`. -/
def States.Panic : Nat := 0x10

/-- Errors surfaced by kernel lifecycle methods: the `properties not loaded`
error made by `Configure`, or a service hook error (opaque, numbered). -/
inductive KError where
  | propertiesNotLoaded
  | hookError (code : Nat)
deriving DecidableEq, Repr

/-- A service, reduced to the outcomes of its four lifecycle hooks
(`nil`/`none` meaning success).  This embeds the `service.Service` contract
the kernel consumes; the kernel never inspects anything else. -/
structure Svc where
  startErr : Option KError
  configureErr : Option KError
  processErr : Option KError
  stopErr : Option KError
deriving DecidableEq, Repr

/-- `kernel.Core`: the service list, the notification queue it owns
(entries are destination identity paired with the notification), the
`internal` error slot and the `state` flag.  Logger and properties are
side-effect-only collaborators and are not part of the state. -/
structure Core where
  services : List Svc
  queue : List (String × Notification)
  internal : Option KError
  state : Nat
deriving DecidableEq, Repr

/-- The Go zero value `kernel.Core\x7b\x7d`: empty service list, no queue
entries, nil internal error, zero state flag. -/
def freshCore : Core :=
  { services := [], queue := [], internal := none, state := 0 }

/-- `Core.State()` from `core.go`. -/
def Core.State (core : Core) : Nat :=
  core.state

/-- Modelled from the spec: the kernel's `checkIf` helper lives in a kernel
source file that is not under `src/`.  Per §4.2 it checks one hook result;
on failure it records the failure (into `core.internal`) and on success it
keeps going — it returns whether the hook succeeded, matching its uses
`!core.checkIf(...)` (abort on failure) in `Configure`/`Run` and
`core.checkIf(...)` (abort on success) in `Stop`. -/
def checkIf (core : Core) (err : Option KError) : Core × Bool :=
  match err with
  | none => (core, true)
  | some e => ({ core with internal := some e }, false)

/-- The `Notifications(dest)` drain of the kernel's queue, an external
collaborator contract (§6): returns the entries addressed to `dest` in
order and removes exactly those from the queue. -/
def drainFor (queue : List (String × Notification)) (dest : String) :
    List Notification × List (String × Notification) :=
  ((queue.filter (fun p => decide (p.1 = dest))).map (fun p => p.2),
   queue.filter (fun p => decide (p.1 ≠ dest)))

/-- Modelled from the spec: the kernel's `core.handle` routing of one
drained notification (§4.2/§4.3) — content type selects the bus channel;
unknown content is dropped. -/
def routeChannel (c : Content) : Option String :=
  match c with
  | Content.command _ => some Channels.Command
  | Content.data _ => some Channels.Data
  | Content.error _ => some Channels.Error
  | Content.other _ => none

/-- The loop of `Core.Configure`: for each service in order,
`checkIf(s.Start(...)) && checkIf(s.Configure(...))`, returning
`core.internal` as soon as either fails; on completion sets the state to
`Idle` and returns nil. -/
def configureLoop (core : Core) (svcs : List Svc) : Core × Option KError :=
  match svcs with
  | [] => ({ core with state := States.Idle }, none)
  | s :: rest =>
    let cr1 := checkIf core s.startErr
    if !cr1.2 then (cr1.1, cr1.1.internal)
    else
      let cr2 := checkIf cr1.1 s.configureErr
      if !cr2.2 then (cr2.1, cr2.1.internal)
      else configureLoop cr2.1 rest

/-- `Core.Configure` from `core.go`: fails at once when the properties are
not loaded; otherwise stores the services, allocates a fresh notification
queue, clears `internal`, and runs the start/configure loop. -/
def Configure (core : Core) (svcs : List Svc) (propsLoaded : Bool) :
    Core × Option KError :=
  if !propsLoaded then (core, some KError.propertiesNotLoaded)
  else
    configureLoop
      { core with services := svcs, queue := [], internal := none } svcs

/-- The loop of `Core.Run`, carrying the index of the next service for the
trace of `Process` calls.  For each service: `checkIf(s.Process())`; on
failure return `core.internal` immediately; on success drain the
notifications addressed to the kernel and route each one, then continue.
On completion set the state to `Idle`.  Returns the core, the result, the
list of service indices whose `Process` hook was called (in call order) and
the bus publications made by routing. -/
def runLoop (core : Core) (svcs : List Svc) (idx : Nat) :
    Core × Option KError × List Nat × List (String × Content) :=
  match svcs with
  | [] => ({ core with state := States.Idle }, none, [], [])
  | s :: rest =>
    let cr := checkIf core s.processErr
    if cr.2 then
      let dq := drainFor cr.1.queue EntityNames.Core
      let pubs := dq.1.filterMap
        (fun n => (routeChannel n.content).map (fun ch => (ch, n.content)))
      let r := runLoop { cr.1 with queue := dq.2 } rest (idx + 1)
      (r.1, r.2.1, idx :: r.2.2.1, pubs ++ r.2.2.2)
    else
      (cr.1, cr.1.internal, [idx], [])

/-- `Core.Run` from `core.go`: sets the state to `Working` first, then runs
the process-and-drain loop over the stored services. -/
def Run (core : Core) :
    Core × Option KError × List Nat × List (String × Content) :=
  runLoop { core with state := States.Working } core.services 0

/-- The loop of `Core.Stop`, carrying the index of the next service for the
trace of `Stop` hook calls.  For each service: `if core.checkIf(s.Stop(), ...)
\x7b return core.internal \x7d` — i.e. abort and return the internal error
as soon as a hook *succeeds*, and keep going (with the failure recorded)
when it fails.  On completion set the state to `Stopped` and return nil. -/
def stopLoop (core : Core) (svcs : List Svc) (idx : Nat) :
    Core × Option KError × List Nat :=
  match svcs with
  | [] => ({ core with state := States.Stopped }, none, [])
  | s :: rest =>
    let cr := checkIf core s.stopErr
    if cr.2 then (cr.1, cr.1.internal, [idx])
    else
      let r := stopLoop cr.1 rest (idx + 1)
      (r.1, r.2.1, idx :: r.2.2)

/-- `Core.Stop` from `core.go`. -/
def Stop (core : Core) : Core × Option KError × List Nat :=
  stopLoop core core.services 0

/-! ## Notification routing (src/services/network/notification.go) -/

/-- The error returned by `defaultNotificationHandler` when an emit fails:
`fmt.Errorf("failed to emit message")`. -/
inductive NError where
  | failedToEmit
deriving DecidableEq, Repr

/-- The observable outcome of the network service's notification handler:
the bus publications made (channel name with published content), the number
of warning log lines, and the returned error. -/
structure HandleResult where
  publishes : List (String × Content)
  warns : Nat
  result : Option NError
deriving DecidableEq, Repr

/-- `defaultNotificationHandler` from `notification.go`: switch on the
content's type — `CommandObject`/`DataObject`/`ErrorObject` are emitted on
the corresponding channel, anything else logs one warning and is dropped;
a failed emit turns into the `failed to emit message` error.  `emitOk`
abstracts `service.emit` (not under `src/`; per the spec it publishes on
the bus and reports whether the channel had subscribers). -/
def defaultNotificationHandler (emitOk : String → Bool) (n : Notification) :
    HandleResult :=
  match n.content with
  | Content.command _ =>
    { publishes := [(Channels.Command, n.content)], warns := 0,
      result := if emitOk Channels.Command then none
                else some NError.failedToEmit }
  | Content.data _ =>
    { publishes := [(Channels.Data, n.content)], warns := 0,
      result := if emitOk Channels.Data then none
                else some NError.failedToEmit }
  | Content.error _ =>
    { publishes := [(Channels.Error, n.content)], warns := 0,
      result := if emitOk Channels.Error then none
                else some NError.failedToEmit }
  | Content.other _ =>
    { publishes := [], warns := 1, result := none }

/-- `Service.handle` from `notification.go`: notifications whose source is
the module entity or the core entity are routed through
`defaultNotificationHandler`; any other source logs one warning and is
dropped, returning nil. -/
def handle (emitOk : String → Bool) (n : Notification) : HandleResult :=
  if n.src = EntityNames.Module ∨ n.src = EntityNames.Core then
    defaultNotificationHandler emitOk n
  else
    { publishes := [], warns := 1, result := none }

/-! ## Test fixtures -/

/-- Bus used for the `Unsubscribe` scenario: two subscribers `A` then `B`
registered on channel `"ch"`. -/
def c1bus : Bus :=
  (Subscribe (Subscribe { subscribers := [], ids := [] } "ch" "A" 10 11).1
    "ch" "B" 20 21).1

/-- First step of the scenario: unsubscribing `A` from `"ch"`. -/
def c1step1 : Bus × Option BusError × List Nat :=
  Unsubscribe c1bus "ch" "A"

/-- Second step: unsubscribing `B`, the last remaining subscriber. -/
def c1step2 : Bus × Option BusError × List Nat :=
  Unsubscribe c1step1.1 "ch" "B"

/-- Claim C1 — code bug.  The claim says `Unsubscribe` removes the matched
registration from the channel's list and deletes the channel entry once the
list is empty, so that after the last subscriber is unsubscribed a `Publish`
behaves as "no subscribers".  The code updates only the local slice header
(`sub = append(sub[:i], sub[i+1:]...)` is never written back to the map), so
on a channel that held two subscribers both unsubscriptions succeed, the
cancellation token is invoked and the id is removed from the known-id set,
yet the map still holds a two-entry list (the remaining subscriber
duplicated) and a subsequent `Publish` still invokes the handler twice
instead of reporting `ChannelNotFound`. -/
theorem claim_C1 :
    c1step1.2.1 = none ∧ c1step2.2.1 = none ∧
    c1step1.2.2 = [11] ∧
    subscriberId "ch" "A" ∉ c1step1.1.ids ∧
    subscriberId "ch" "B" ∉ c1step2.1.ids ∧
    mapLookup c1step1.1.subscribers "ch" =
      some [⟨subscriberId "ch" "B", 20, 21⟩, ⟨subscriberId "ch" "B", 20, 21⟩] ∧
    mapLookup c1step2.1.subscribers "ch" =
      some [⟨subscriberId "ch" "B", 20, 21⟩, ⟨subscriberId "ch" "B", 20, 21⟩] ∧
    (Publish c1step2.1 "ch" true).2.1.length = 2 ∧
    (Publish c1step2.1 "ch" true).2.1 ≠
      [⟨none, none, some BusError.channelNotFound, 0⟩] := by
  decide

/-- Claim C4: publishing on a channel with no registered subscribers invokes
a supplied handler exactly once with no reply conduit, no error conduit, the
`ChannelNotFound` error and a zero timeout, starts no delivery attempt and
leaves the bus unchanged; with no handler it does nothing at all. -/
theorem claim_C4 (bus : Bus) (channel : String)
    (h : mapLookup bus.subscribers channel = none) :
    Publish bus channel true =
      (bus, [⟨none, none, some BusError.channelNotFound, 0⟩], []) ∧
    Publish bus channel false = (bus, [], []) := by
  constructor <;> simp [Publish, h]

/-- Bus fixture for the C4 witness: one unrelated channel registered. -/
def w4bus : Bus :=
  { subscribers := [("other", [⟨"other:f", 1, 2⟩])], ids := ["other:f"] }

theorem claim_C4_witness :
    Publish w4bus "ghost" true =
      (w4bus, [⟨none, none, some BusError.channelNotFound, 0⟩], []) ∧
    Publish w4bus "ghost" false = (w4bus, [], []) :=
  claim_C4 w4bus "ghost" (by decide)

/-- Claim C8: a notification whose source identity is neither the module
entity nor the core entity is logged as unhandled and dropped — no publish,
one warning, nil error. -/
theorem claim_C8 (emitOk : String → Bool) (n : Notification)
    (h1 : n.src ≠ EntityNames.Module) (h2 : n.src ≠ EntityNames.Core) :
    (handle emitOk n).publishes = [] ∧ (handle emitOk n).warns = 1 ∧
    (handle emitOk n).result = none := by
  simp [handle, h1, h2]

theorem claim_C8_witness :
    (handle (fun _ => true) ⟨"gadget", Content.data 3⟩).publishes = [] ∧
    (handle (fun _ => true) ⟨"gadget", Content.data 3⟩).warns = 1 ∧
    (handle (fun _ => true) ⟨"gadget", Content.data 3⟩).result = none :=
  claim_C8 (fun _ => true) ⟨"gadget", Content.data 3⟩ (by decide) (by decide)

/-- Claim C9: whenever `Subscribe` fails with
`ChannelSubscriberAlreadyExists`, the bus's subscriber table and known-id
set are exactly as they were before the call. -/
theorem claim_C9 (bus : Bus) (channel name : String)
    (freshCh freshCancel : Nat)
    (h : (Subscribe bus channel name freshCh freshCancel).2 =
      some BusError.channelSubscriberAlreadyExists) :
    (Subscribe bus channel name freshCh freshCancel).1 = bus := by
  by_cases hm : subscriberId channel name ∈ bus.ids
  · simp [Subscribe, hm]
  · simp [Subscribe, hm] at h

/-- Bus fixture for the C9 witness: id `a:f` already registered. -/
def w9bus : Bus :=
  { subscribers := [("a", [⟨"a:f", 1, 2⟩])], ids := ["a:f"] }

theorem claim_C9_witness : (Subscribe w9bus "a" "f" 9 9).1 = w9bus :=
  claim_C9 w9bus "a" "f" 9 9 (by decide)

/-- Claim C7: for a notification from a recognized source, routing inspects
the content's type — command content is published on the "Command" channel,
data content on "Data", error content on "Error", each as exactly one
publish with no warning; any other content type produces zero publishes and
one warning and is not an error. -/
theorem claim_C7 (emitOk : String → Bool) (n : Notification)
    (hsrc : n.src = EntityNames.Module ∨ n.src = EntityNames.Core) :
    (∀ p, n.content = Content.command p →
      (handle emitOk n).publishes = [(Channels.Command, n.content)] ∧
      (handle emitOk n).warns = 0) ∧
    (∀ p, n.content = Content.data p →
      (handle emitOk n).publishes = [(Channels.Data, n.content)] ∧
      (handle emitOk n).warns = 0) ∧
    (∀ p, n.content = Content.error p →
      (handle emitOk n).publishes = [(Channels.Error, n.content)] ∧
      (handle emitOk n).warns = 0) ∧
    (∀ p, n.content = Content.other p →
      (handle emitOk n).publishes = [] ∧ (handle emitOk n).warns = 1 ∧
      (handle emitOk n).result = none) := by
  have hhandle : handle emitOk n = defaultNotificationHandler emitOk n := by
    unfold handle
    rw [if_pos hsrc]
  refine ⟨?_, ?_, ?_, ?_⟩ <;> intro p hp <;>
    simp [hhandle, defaultNotificationHandler, hp]

theorem claim_C7_witness :
    (handle (fun _ => true)
      ⟨EntityNames.Core, Content.data 5⟩).publishes =
        [(Channels.Data, Content.data 5)] ∧
    (handle (fun _ => true) ⟨EntityNames.Core, Content.data 5⟩).warns = 0 :=
  (claim_C7 (fun _ => true) ⟨EntityNames.Core, Content.data 5⟩
    (Or.inr rfl)).2.1 5 rfl

/-! ## Lemmas about the bus tables -/

theorem strDataAppend (a b : String) : (a ++ b).data = a.data ++ b.data :=
  rfl

/-- Two registration ids built from the same consumer name agree only when
the channel names agree (suffix cancellation on the underlying character
lists). -/
theorem subscriberId_left_inj {a b n : String}
    (h : subscriberId a n = subscriberId b n) : a = b := by
  unfold subscriberId at h
  have hd := congrArg String.data h
  rw [strDataAppend, strDataAppend, strDataAppend, strDataAppend] at hd
  exact String.ext (List.append_cancel_right (List.append_cancel_right hd))

theorem mapLookup_set_self {α : Type} (m : List (String × α)) (k : String)
    (v : α) : mapLookup (mapSet m k v) k = some v := by
  induction m with
  | nil => simp [mapSet, mapLookup]
  | cons p rest ih =>
    obtain ⟨k', v'⟩ := p
    by_cases h : k' = k
    · simp [mapSet, mapLookup, h]
    · simp [mapSet, mapLookup, h, ih]

/-- Claim C5: a first `Subscribe` on a fresh (channel, consumer) identity
succeeds and records the registration at the end of the channel's list and
its id in the known-id set; repeating it with the same identity fails with
`ChannelSubscriberAlreadyExists`; subscribing the same consumer on a second,
different channel succeeds as well. -/
theorem claim_C5 (bus : Bus) (ch1 ch2 name : String)
    (q1 t1 q2 t2 q3 t3 : Nat) (hch : ch1 ≠ ch2)
    (h1 : subscriberId ch1 name ∉ bus.ids)
    (h2 : subscriberId ch2 name ∉ bus.ids) :
    (Subscribe bus ch1 name q1 t1).2 = none ∧
    subscriberId ch1 name ∈ (Subscribe bus ch1 name q1 t1).1.ids ∧
    mapLookup (Subscribe bus ch1 name q1 t1).1.subscribers ch1 =
      some ((mapLookup bus.subscribers ch1).getD [] ++
        [⟨subscriberId ch1 name, q1, t1⟩]) ∧
    (Subscribe (Subscribe bus ch1 name q1 t1).1 ch1 name q2 t2).2 =
      some BusError.channelSubscriberAlreadyExists ∧
    (Subscribe (Subscribe bus ch1 name q1 t1).1 ch2 name q3 t3).2 = none := by
  have hne : subscriberId ch2 name ≠ subscriberId ch1 name :=
    fun h => hch (subscriberId_left_inj h).symm
  refine ⟨?_, ?_, ?_, ?_, ?_⟩
  · simp [Subscribe, h1]
  · simp [Subscribe, h1]
  · simp [Subscribe, h1, mapLookup_set_self]
  · simp [Subscribe, h1]
  · simp [Subscribe, h1, hne, h2]

/-- Empty bus fixture for the C5 witness. -/
def w5bus : Bus := { subscribers := [], ids := [] }

theorem claim_C5_witness :
    (Subscribe w5bus "a" "f" 1 2).2 = none ∧
    subscriberId "a" "f" ∈ (Subscribe w5bus "a" "f" 1 2).1.ids ∧
    mapLookup (Subscribe w5bus "a" "f" 1 2).1.subscribers "a" =
      some ((mapLookup w5bus.subscribers "a").getD [] ++
        [⟨subscriberId "a" "f", 1, 2⟩]) ∧
    (Subscribe (Subscribe w5bus "a" "f" 1 2).1 "a" "f" 3 4).2 =
      some BusError.channelSubscriberAlreadyExists ∧
    (Subscribe (Subscribe w5bus "a" "f" 1 2).1 "b" "f" 5 6).2 = none :=
  claim_C5 w5bus "a" "b" "f" 1 2 3 4 5 6 (by decide) (by decide) (by decide)

/-! ## Lemmas about the publish fan-out -/

theorem fanOut_inv_length (subs : List Sub) (i : Nat) :
    (fanOut subs true i).1.length = subs.length := by
  induction subs generalizing i with
  | nil => simp [fanOut]
  | cons s rest ih => simp [fanOut, ih]

theorem fanOut_inv_get (subs : List Sub) (i j : Nat) (hj : j < subs.length) :
    (fanOut subs true i).1[j]? =
      some ⟨some (2 * (i + j)), some (2 * (i + j) + 1), none,
        replyTimeout⟩ := by
  induction subs generalizing i j with
  | nil => simp at hj
  | cons s rest ih =>
    cases j with
    | zero => simp [fanOut]
    | succ j =>
      have hj' : j < rest.length := by simpa using hj
      rw [show i + (j + 1) = i + 1 + j from by omega]
      simpa [fanOut] using ih (i + 1) j hj'

theorem fanOut_del_get (subs : List Sub) (b : Bool) (i j : Nat) :
    (fanOut subs b i).2[j]? =
      (subs[j]?).map
        (fun s => Delivery.mk s.ch (2 * (i + j)) (2 * (i + j) + 1)) := by
  induction subs generalizing i j with
  | nil => simp [fanOut]
  | cons s rest ih =>
    cases j with
    | zero => simp [fanOut]
    | succ j =>
      rw [show i + (j + 1) = i + 1 + j from by omega]
      simpa [fanOut] using ih (i + 1) j

/-- Claim C3: publishing with a handler on a channel holding N ≥ 1
subscribers invokes the handler exactly N times, once per subscriber in
registration order; the i-th invocation passes the fresh reply and error
conduits of the event delivered to the i-th subscriber, a nil error and the
25 ms timeout; the matching delivery attempt targets that subscriber's
queue; all invocations are part of `Publish`'s own execution (they are in
its returned trace), and the bus is unchanged. -/
theorem claim_C3 (bus : Bus) (channel : String) (subs : List Sub)
    (h : mapLookup bus.subscribers channel = some subs)
    (_hN : 0 < subs.length) :
    (Publish bus channel true).2.1.length = subs.length ∧
    (∀ i, i < subs.length →
      (Publish bus channel true).2.1[i]? =
        some ⟨some (2 * i), some (2 * i + 1), none, replyTimeout⟩ ∧
      (Publish bus channel true).2.2[i]? =
        (subs[i]?).map
          (fun s => Delivery.mk s.ch (2 * i) (2 * i + 1))) ∧
    (Publish bus channel true).1 = bus := by
  have hp : Publish bus channel true =
      (bus, (fanOut subs true 0).1, (fanOut subs true 0).2) := by
    simp [Publish, h]
  refine ⟨?_, ?_, ?_⟩
  · rw [hp]
    exact fanOut_inv_length subs 0
  · intro i hi
    rw [hp]
    constructor
    · simpa using fanOut_inv_get subs 0 i hi
    · simpa using fanOut_del_get subs true 0 i
  · rw [hp]

/-- Bus fixture for the C3 witness: two subscribers on channel `"ch"`. -/
def w3bus : Bus :=
  { subscribers := [("ch", [⟨"ch:A", 1, 2⟩, ⟨"ch:B", 3, 4⟩])],
    ids := ["ch:A", "ch:B"] }

theorem claim_C3_witness :
    (Publish w3bus "ch" true).2.1.length = 2 ∧
    (Publish w3bus "ch" true).2.1[1]? =
      some ⟨some 2, some 3, none, replyTimeout⟩ ∧
    (Publish w3bus "ch" true).2.2[1]? = some ⟨3, 2, 3⟩ ∧
    (Publish w3bus "ch" true).1 = w3bus := by
  have h := claim_C3 w3bus "ch" [⟨"ch:A", 1, 2⟩, ⟨"ch:B", 3, 4⟩]
    (by decide) (by decide)
  exact ⟨h.1, by simpa using (h.2.1 1 (by decide)).1,
    by simpa using (h.2.1 1 (by decide)).2, h.2.2⟩

/-! ## Lemmas about the kernel loops -/

/-- The value held in `core.internal` after `checkIf` has processed the
given hook results in order: the error of the most recent failing hook, or
the initial value when none failed. -/
def stopRecord (init : Option KError) (svcs : List Svc) : Option KError :=
  match svcs with
  | [] => init
  | s :: rest =>
    stopRecord (match s.stopErr with | some e => some e | none => init) rest

theorem stopLoop_first_success :
    ∀ (svcs : List Svc) (core : Core) (idx k : Nat) (hk : k < svcs.length),
      svcs[k].stopErr = none →
      (∀ j, (hj : j < k) → svcs[j].stopErr ≠ none) →
      (stopLoop core svcs idx).2.1 =
        stopRecord core.internal (svcs.take k) ∧
      (stopLoop core svcs idx).2.2 = List.range' idx (k + 1) ∧
      (stopLoop core svcs idx).1.state = core.state := by
  intro svcs
  induction svcs with
  | nil =>
    intro core idx k hk
    exact absurd hk (by simp)
  | cons s rest ih =>
    intro core idx k hk hsucc hprev
    cases k with
    | zero =>
      have hs : s.stopErr = none := by simpa using hsucc
      simp [stopLoop, checkIf, hs, stopRecord, List.range']
    | succ k =>
      have hs : s.stopErr ≠ none := by simpa using hprev 0 (Nat.succ_pos k)
      obtain ⟨e, he⟩ := Option.ne_none_iff_exists'.mp hs
      have hk' : k < rest.length := by simpa using hk
      have hsucc' : rest[k].stopErr = none := by simpa using hsucc
      have hprev' : ∀ j, (hj : j < k) → rest[j].stopErr ≠ none := by
        intro j hj
        simpa using hprev (j + 1) (by omega)
      have ihr := ih { core with internal := some e } (idx + 1) k hk'
        hsucc' hprev'
      refine ⟨?_, ?_, ?_⟩
      · simpa [stopLoop, checkIf, he, stopRecord] using ihr.1
      · simpa [stopLoop, checkIf, he, List.range'] using ihr.2.1
      · simpa [stopLoop, checkIf, he] using ihr.2.2

theorem stopLoop_all_fail :
    ∀ (svcs : List Svc) (core : Core) (idx : Nat),
      (∀ j, (hj : j < svcs.length) → svcs[j].stopErr ≠ none) →
      (stopLoop core svcs idx).2.1 = none ∧
      (stopLoop core svcs idx).1.state = States.Stopped ∧
      (stopLoop core svcs idx).2.2 = List.range' idx svcs.length := by
  intro svcs
  induction svcs with
  | nil =>
    intro core idx _
    simp [stopLoop]
  | cons s rest ih =>
    intro core idx hall
    have hs : s.stopErr ≠ none := by simpa using hall 0 (by simp)
    obtain ⟨e, he⟩ := Option.ne_none_iff_exists'.mp hs
    have hall' : ∀ j, (hj : j < rest.length) → rest[j].stopErr ≠ none := by
      intro j hj
      simpa using hall (j + 1) (by simp only [List.length_cons]; omega)
    have ihr := ih { core with internal := some e } (idx + 1) hall'
    refine ⟨?_, ?_, ?_⟩
    · simpa [stopLoop, checkIf, he] using ihr.1
    · simpa [stopLoop, checkIf, he] using ihr.2.1
    · simpa [stopLoop, checkIf, he, List.range'] using ihr.2.2

/-- Claim C2 (amended): `Kernel.Stop()` calls each service's Stop hook in
list order; when a service's Stop call reports success, it aborts further
stopping and immediately returns the kernel's recorded internal error (the
error of the most recent earlier failing Stop hook, or the pre-call
internal value when no earlier hook failed — not necessarily the succeeding
service's own nil error), leaving the state unchanged; on completing the
loop without an early return (every hook failed) it transitions the kernel
state to `Stopped` and returns success. -/
theorem claim_C2 (core : Core) :
    (∀ k, (hk : k < core.services.length) →
      core.services[k].stopErr = none →
      (∀ j, (hj : j < k) → core.services[j].stopErr ≠ none) →
      (Stop core).2.2 = List.range (k + 1) ∧
      (Stop core).2.1 = stopRecord core.internal (core.services.take k) ∧
      (Stop core).1.state = core.state) ∧
    ((∀ j, (hj : j < core.services.length) →
        core.services[j].stopErr ≠ none) →
      (Stop core).2.1 = none ∧
      (Stop core).1.state = States.Stopped ∧
      (Stop core).2.2 = List.range core.services.length) := by
  constructor
  · intro k hk hsucc hprev
    have h := stopLoop_first_success core.services core 0 k hk hsucc hprev
    exact ⟨by rw [List.range_eq_range']; exact h.2.1, h.1, h.2.2⟩
  · intro hall
    have h := stopLoop_all_fail core.services core 0 hall
    exact ⟨h.1, h.2.1, by rw [List.range_eq_range']; exact h.2.2⟩

/-- Kernel fixture for C2: the first service's Stop hook fails with error 7,
the second one succeeds. -/
def c2core : Core :=
  { services := [⟨none, none, none, some (KError.hookError 7)⟩,
                 ⟨none, none, none, none⟩],
    queue := [], internal := none, state := States.Idle }

/-- Counterexample to claim C2 as stated: on `c2core` the second service is
the first whose Stop hook reports success, stopping aborts right after it,
but `Stop` returns `some (hookError 7)` — the error recorded from the
*first* service — instead of the succeeding service's own nil error. -/
theorem claim_C2_counterexample :
    (c2core.services[1]?).map Svc.stopErr = some none ∧
    (Stop c2core).2.2 = [0, 1] ∧
    (Stop c2core).2.1 = some (KError.hookError 7) ∧
    (Stop c2core).2.1 ≠ none := by
  decide

theorem claim_C2_witness :
    (Stop c2core).2.2 = [0, 1] ∧
    (Stop c2core).2.1 = some (KError.hookError 7) ∧
    (Stop c2core).1.state = c2core.state := by
  have h := (claim_C2 c2core).1 1 (by decide) (by decide)
    (fun j hj => by
      have hj0 : j = 0 := by omega
      subst hj0
      simp [c2core])
  refine ⟨?_, ?_, h.2.2⟩
  · rw [h.1]
    decide
  · rw [h.2.1]
    decide

theorem runLoop_first_fail :
    ∀ (svcs : List Svc) (core : Core) (idx k : Nat) (hk : k < svcs.length),
      svcs[k].processErr ≠ none →
      (∀ j, (hj : j < k) → svcs[j].processErr = none) →
      (runLoop core svcs idx).2.1 = svcs[k].processErr ∧
      (runLoop core svcs idx).2.2.1 = List.range' idx (k + 1) ∧
      (runLoop core svcs idx).1.state = core.state := by
  intro svcs
  induction svcs with
  | nil =>
    intro core idx k hk
    exact absurd hk (by simp)
  | cons s rest ih =>
    intro core idx k hk hfail hprev
    cases k with
    | zero =>
      have hs : s.processErr ≠ none := by simpa using hfail
      obtain ⟨e, he⟩ := Option.ne_none_iff_exists'.mp hs
      simp [runLoop, checkIf, he, List.range']
    | succ k =>
      have hs : s.processErr = none := by simpa using hprev 0 (Nat.succ_pos k)
      have hk' : k < rest.length := by simpa using hk
      have hfail' : rest[k].processErr ≠ none := by simpa using hfail
      have hprev' : ∀ j, (hj : j < k) → rest[j].processErr = none := by
        intro j hj
        simpa using hprev (j + 1) (by omega)
      have ihr := ih
        { core with queue := (drainFor core.queue EntityNames.Core).2 }
        (idx + 1) k hk' hfail' hprev'
      refine ⟨?_, ?_, ?_⟩
      · simpa [runLoop, checkIf, hs] using ihr.1
      · simpa [runLoop, checkIf, hs, List.range'] using ihr.2.1
      · simpa [runLoop, checkIf, hs] using ihr.2.2

theorem runLoop_all_ok :
    ∀ (svcs : List Svc) (core : Core) (idx : Nat),
      (∀ j, (hj : j < svcs.length) → svcs[j].processErr = none) →
      (runLoop core svcs idx).2.1 = none ∧
      (runLoop core svcs idx).1.state = States.Idle ∧
      (runLoop core svcs idx).2.2.1 = List.range' idx svcs.length := by
  intro svcs
  induction svcs with
  | nil =>
    intro core idx _
    simp [runLoop]
  | cons s rest ih =>
    intro core idx hall
    have hs : s.processErr = none := by simpa using hall 0 (by simp)
    have hall' : ∀ j, (hj : j < rest.length) → rest[j].processErr = none := by
      intro j hj
      simpa using hall (j + 1) (by simp only [List.length_cons]; omega)
    have ihr := ih
      { core with queue := (drainFor core.queue EntityNames.Core).2 }
      (idx + 1) hall'
    refine ⟨?_, ?_, ?_⟩
    · simpa [runLoop, checkIf, hs] using ihr.1
    · simpa [runLoop, checkIf, hs] using ihr.2.1
    · simpa [runLoop, checkIf, hs, List.range'] using ihr.2.2

/-- Claim C6: when the k-th service's Process hook is the first to fail,
`Run` calls Process exactly once on each service up to and including the
k-th (trace `[0, …, k]`), never on any later service, returns that
service's error and leaves the kernel state at `Working`; when every
Process hook succeeds, `Run` transitions the state back to `Idle` and
returns success. -/
theorem claim_C6 (core : Core) :
    (∀ k, (hk : k < core.services.length) →
      core.services[k].processErr ≠ none →
      (∀ j, (hj : j < k) → core.services[j].processErr = none) →
      (Run core).2.2.1 = List.range (k + 1) ∧
      (Run core).2.1 = core.services[k].processErr ∧
      (Run core).1.state = States.Working) ∧
    ((∀ j, (hj : j < core.services.length) →
        core.services[j].processErr = none) →
      (Run core).2.1 = none ∧
      (Run core).1.state = States.Idle ∧
      (Run core).2.2.1 = List.range core.services.length) := by
  constructor
  · intro k hk hfail hprev
    have h := runLoop_first_fail core.services
      { core with state := States.Working } 0 k hk hfail hprev
    exact ⟨by rw [List.range_eq_range']; exact h.2.1, h.1, h.2.2⟩
  · intro hall
    have h := runLoop_all_ok core.services
      { core with state := States.Working } 0 hall
    exact ⟨h.1, h.2.1, by rw [List.range_eq_range']; exact h.2.2⟩

/-- Kernel fixture for the C6 witness: three services, the second one's
Process hook fails with error 5. -/
def w6core : Core :=
  { services := [⟨none, none, none, none⟩,
                 ⟨none, none, some (KError.hookError 5), none⟩,
                 ⟨none, none, none, none⟩],
    queue := [], internal := none, state := States.Idle }

theorem claim_C6_witness :
    (Run w6core).2.2.1 = [0, 1] ∧
    (Run w6core).2.1 = some (KError.hookError 5) ∧
    (Run w6core).1.state = States.Working := by
  have h := (claim_C6 w6core).1 1 (by decide) (by decide)
    (fun j hj => by
      have hj0 : j = 0 := by omega
      subst hj0
      simp [w6core])
  refine ⟨?_, ?_, h.2.2⟩
  · rw [h.1]
    decide
  · rw [h.2.1]
    decide

/-! ## Kernel call sequences (for the fresh-state claim) -/

/-- One call of the kernel's public lifecycle API. -/
inductive KCall where
  | configure (svcs : List Svc) (loaded : Bool)
  | run
  | stop
deriving DecidableEq, Repr

/-- Execute one lifecycle call, keeping the resulting core and the returned
error. -/
def execCall (core : Core) (call : KCall) : Core × Option KError :=
  match call with
  | KCall.configure svcs loaded =>
    ((Configure core svcs loaded).1, (Configure core svcs loaded).2)
  | KCall.run => ((Run core).1, (Run core).2.1)
  | KCall.stop => ((Stop core).1, (Stop core).2.1)

/-- Execute a sequence of lifecycle calls. -/
def execTrace (core : Core) (calls : List KCall) : Core :=
  match calls with
  | [] => core
  | c :: rest => execTrace (execCall core c).1 rest

/-- `true` when the sequence contains no `Run` call and every `Configure`
and `Stop` call in it fails (returns a non-nil error). -/
def noSuccessfulCallB (core : Core) (calls : List KCall) : Bool :=
  match calls with
  | [] => true
  | KCall.run :: _ => false
  | KCall.configure svcs loaded :: rest =>
    decide ((execCall core (KCall.configure svcs loaded)).2 ≠ none) &&
      noSuccessfulCallB (execCall core (KCall.configure svcs loaded)).1 rest
  | KCall.stop :: rest =>
    decide ((execCall core KCall.stop).2 ≠ none) &&
      noSuccessfulCallB (execCall core KCall.stop).1 rest

theorem configureLoop_fail_state :
    ∀ (svcs : List Svc) (core : Core),
      (configureLoop core svcs).2 ≠ none →
      (configureLoop core svcs).1.state = core.state := by
  intro svcs
  induction svcs with
  | nil =>
    intro core h
    simp [configureLoop] at h
  | cons s rest ih =>
    intro core h
    cases hs : s.startErr with
    | some e => simp [configureLoop, checkIf, hs]
    | none =>
      cases hc : s.configureErr with
      | some e => simp [configureLoop, checkIf, hs, hc]
      | none =>
        simp only [configureLoop, checkIf, hs, hc, Bool.not_true,
          Bool.false_eq_true, if_false] at h ⊢
        exact ih core h

theorem Configure_fail_state (core : Core) (svcs : List Svc) (loaded : Bool)
    (h : (Configure core svcs loaded).2 ≠ none) :
    (Configure core svcs loaded).1.state = core.state := by
  cases loaded with
  | false => simp [Configure]
  | true =>
    simp only [Configure, Bool.not_true, Bool.false_eq_true, if_false] at h ⊢
    exact configureLoop_fail_state svcs
      { core with services := svcs, queue := [], internal := none } h

theorem stopLoop_fail_state :
    ∀ (svcs : List Svc) (core : Core) (idx : Nat),
      (stopLoop core svcs idx).2.1 ≠ none →
      (stopLoop core svcs idx).1.state = core.state := by
  intro svcs
  induction svcs with
  | nil =>
    intro core idx h
    simp [stopLoop] at h
  | cons s rest ih =>
    intro core idx h
    cases hs : s.stopErr with
    | none => simp [stopLoop, checkIf, hs]
    | some e =>
      simp only [stopLoop, checkIf, hs, Bool.false_eq_true, if_false] at h ⊢
      exact ih { core with internal := some e } (idx + 1) h

theorem execTrace_state_zero :
    ∀ (calls : List KCall) (core : Core), core.state = 0 →
      noSuccessfulCallB core calls = true →
      (execTrace core calls).state = 0 := by
  intro calls
  induction calls with
  | nil =>
    intro core h0 _
    simpa [execTrace] using h0
  | cons c rest ih =>
    intro core h0 hn
    cases c with
    | run => simp [noSuccessfulCallB] at hn
    | configure svcs loaded =>
      rw [noSuccessfulCallB] at hn
      have hfail : (execCall core (KCall.configure svcs loaded)).2 ≠ none := by
        have := (Bool.and_eq_true _ _).mp hn
        exact of_decide_eq_true this.1
      have hrest := ((Bool.and_eq_true _ _).mp hn).2
      rw [execTrace]
      apply ih _ _ hrest
      have hst := Configure_fail_state core svcs loaded hfail
      simpa [execCall, hst] using h0
    | stop =>
      rw [noSuccessfulCallB] at hn
      have hfail : (execCall core KCall.stop).2 ≠ none := by
        have := (Bool.and_eq_true _ _).mp hn
        exact of_decide_eq_true this.1
      have hrest := ((Bool.and_eq_true _ _).mp hn).2
      rw [execTrace]
      apply ih _ _ hrest
      have hst := stopLoop_fail_state core.services core 0 hfail
      simpa [execCall, Stop, hst] using h0

/-- Claim C10 (amended): starting from the Go zero value of `kernel.Core`,
as long as every `Configure` and `Stop` call so far has failed and no `Run`
call (successful or not) has been made, `Core.State()` returns the zero
state value `0`, which is equal to none of the five named states
(`Started = 0x1`, `Idle = 0x2`, `Working = 0x4`, `Stopped = 0x8`,
`Panic = 0x10`).  (`Run` sets the state to `Working` on entry even when it
subsequently fails, so the original "before the first successful call"
phrasing does not survive a failed `Run`.) -/
theorem claim_C10 (calls : List KCall)
    (h : noSuccessfulCallB freshCore calls = true) :
    (execTrace freshCore calls).State = 0 ∧
    (execTrace freshCore calls).State ≠ States.Started ∧
    (execTrace freshCore calls).State ≠ States.Idle ∧
    (execTrace freshCore calls).State ≠ States.Working ∧
    (execTrace freshCore calls).State ≠ States.Stopped ∧
    (execTrace freshCore calls).State ≠ States.Panic := by
  have h0 := execTrace_state_zero calls freshCore rfl h
  unfold Core.State
  rw [h0]
  exact ⟨rfl, by decide, by decide, by decide, by decide, by decide⟩

/-- Service fixture for the C10 counterexample: `Start` fails (so
`Configure` fails after having stored the service list) and `Process` fails
(so the subsequent `Run` fails too). -/
def c10svc : Svc :=
  { startErr := some (KError.hookError 1), configureErr := none,
    processErr := some (KError.hookError 2), stopErr := none }

/-- Counterexample to claim C10 as stated: a failed `Configure` followed by
a failed `Run` — no successful `Configure`/`Run`/`Stop` call has happened,
yet `State()` now returns `Working` (0x4), not the zero value. -/
theorem claim_C10_counterexample :
    (Configure freshCore [c10svc] true).2 ≠ none ∧
    (Run (Configure freshCore [c10svc] true).1).2.1 ≠ none ∧
    (Run (Configure freshCore [c10svc] true).1).1.State = States.Working ∧
    States.Working ≠ 0 := by
  decide

/-- Service fixture for the C10 witness: `Start` fails, `Stop` succeeds. -/
def w10svc : Svc :=
  { startErr := some (KError.hookError 3), configureErr := none,
    processErr := none, stopErr := none }

/-- Call sequence for the C10 witness: a failed `Configure` (it stores the
service list and records the error) followed by a failed `Stop` (the
service's Stop hook succeeds at index 0, so `Stop` returns the recorded
internal error). -/
def w10calls : List KCall :=
  [KCall.configure [w10svc] true, KCall.stop]

theorem claim_C10_witness :
    noSuccessfulCallB freshCore w10calls = true ∧
    (execTrace freshCore w10calls).State = 0 ∧
    (execTrace freshCore w10calls).State ≠ States.Working :=
  ⟨by decide, (claim_C10 w10calls (by decide)).1,
    (claim_C10 w10calls (by decide)).2.2.2.1⟩

end Gakisitor
